import Mathlib

/-!
Shallow embedding of `main.go` from `golang-gcs-writer-test-01`: an HTTP
service that, per POST request, concurrently writes `number` randomly
generated objects to a GCS bucket and reports an aggregate result.

The embedding translates the Go source:
  * `generateObjectKey` / `generateRandomString` (lines 178-200) become pure
    functions over an explicit entropy source (`RandSource`);
  * the per-object goroutine body (lines 118-143) becomes `writeTask`,
    parameterised by the simulated backend outcome of the write and close
    calls;
  * the buffered error channel `errs := make(chan error, payload.Number)`
    (line 114) becomes `trySend` / `sendAll` over a bounded buffer;
  * `handleRequest` (lines 80-175) becomes a function from the request shape
    and a per-task environment to (status, response, effect trace);
  * the startup sequence of `main` (lines 37-76) becomes `mainStartup`;
  * the synchronisation structure of the coordinator (startTime / spawn /
    send / deferred wg.Done / wg.Wait / time.Since) becomes `Schedule`, an
    assignment of times to those steps constrained exactly by the program
    order and WaitGroup semantics visible in the source.
-/

namespace GCSWriter

/-! ### Entropy source: crypto/rand -/

/-- Modelled from the documented contract of Go's `crypto/rand.Read` (standard
library, not part of this repository): it either fills the buffer entirely
with random bytes or the process aborts irrecoverably; it never hands back
partially filled data.  `failed` models an unusable entropy source; a
computation that hits it returns `none`, standing for the fatal abort. -/
inductive RandSource where
  | ok (stream : Nat → Fin 256)
  | failed

/-- `rand.Read` on a buffer of `n` bytes: all `n` bytes or fatal. -/
def randRead (src : RandSource) (n : Nat) : Option (List Nat) :=
  match src with
  | .ok stream => some ((List.range n).map fun i => (stream i).val)
  | .failed => none

/-! ### generateRandomString (main.go lines 192-200) -/

/-- `const charset = "abcdefghijklmnopqrstuvwxyzABCDEFGHIJKLMNOPQRSTUVWXYZ0123456789"`
(main.go line 193), as its list of characters. -/
def charsetChars : List Char :=
  "abcdefghijklmnopqrstuvwxyzABCDEFGHIJKLMNOPQRSTUVWXYZ0123456789".data

/-- Go: `b[i] = charset[b[i]%byte(len(charset))]` — one byte mapped through
the 62-symbol alphabet (main.go line 197). -/
def charsetAt (b : Nat) : Char :=
  charsetChars.getD (b % 62) 'a'

/-- `generateRandomString` (main.go lines 192-200): fill `length` bytes from
`crypto/rand`, then map each byte into `charset` by reduction modulo 62.
`none` models the fatal entropy failure. -/
def generateRandomString (length : Nat) (src : RandSource) : Option String :=
  match randRead src length with
  | none => none
  | some bs => some ⟨bs.map charsetAt⟩

/-! ### generateObjectKey (main.go lines 178-189) -/

/-- The hex alphabet used by Go's `fmt.Sprintf("%x", ...)`. -/
def hexChars : List Char := "0123456789abcdef".data

/-- One byte rendered as two lowercase hex digits, as `%x` does for each
byte of a `[]byte`. -/
def byteToHex (b : Nat) : List Char :=
  [hexChars.getD (b / 16 % 16) '0', hexChars.getD (b % 16) '0']

/-- `fmt.Sprintf("%x", hashBytes)` (main.go line 185): the concatenation of
the two-digit lowercase hex renderings of the bytes. -/
def bytesToHex (bs : List Nat) : String :=
  ⟨bs.flatMap byteToHex⟩

/-- A Go `time.Time` at second granularity: seconds since the Unix epoch
plus the zone offset (seconds east of UTC) of the location attached to the
value.  `time.Now()` carries the system's local location. -/
structure GoTime where
  epoch : Nat
  offsetSeconds : Int
deriving DecidableEq

/-- The wall-clock reading `Format` displays: the epoch instant shifted by
the value's zone offset. -/
def localClockSeconds (t : GoTime) : Nat :=
  ((t.epoch : Int) + t.offsetSeconds).toNat

/-- Civil date (year, month, day) from a count of days since 1970-01-01
(proleptic Gregorian). -/
def civilFromDays (z : Nat) : Nat × Nat × Nat :=
  let z' := z + 719468
  let era := z' / 146097
  let doe := z' % 146097
  let yoe := (doe - doe / 1460 + doe / 36524 - doe / 146096) / 365
  let y := yoe + era * 400
  let doy := doe - (365 * yoe + yoe / 4 - yoe / 100)
  let mp := (5 * doy + 2) / 153
  let d := doy - (153 * mp + 2) / 5 + 1
  let m := if mp < 10 then mp + 3 else mp - 9
  (if m ≤ 2 then y + 1 else y, m, d)

/-- A number zero-padded on the left to `w` digits, as Go's reference-layout
formatting does for each timestamp component. -/
def padNum (w n : Nat) : List Char :=
  let s := (toString n).data
  List.replicate (w - s.length) '0' ++ s

/-- `Format("20060102T150405")` applied to a wall-clock reading given in
seconds: `yyyymmdd` ++ "T" ++ `hhmmss`. -/
def formatTimestamp (secs : Nat) : String :=
  let days := secs / 86400
  let rem := secs % 86400
  let ymd := civilFromDays days
  ⟨padNum 4 ymd.1 ++ padNum 2 ymd.2.1 ++ padNum 2 ymd.2.2 ++ ['T'] ++
    padNum 2 (rem / 3600) ++ padNum 2 (rem % 3600 / 60) ++ padNum 2 (rem % 60)⟩

/-- `generateObjectKey` (main.go lines 178-189): `time.Now()` formatted with
layout `"20060102T150405"` as the folder, then `/`, then the lowercase hex
of 16 bytes from `crypto/rand`.  `time.Now()` reads the local clock, so the
folder segment is `formatTimestamp` of the local wall-clock reading.
`none` models the fatal entropy failure. -/
def generateObjectKey (now : GoTime) (src : RandSource) : Option String :=
  match randRead src 16 with
  | none => none
  | some hashBytes =>
      some (formatTimestamp (localClockSeconds now) ++ "/" ++ bytesToHex hashBytes)

/-- Modelled from the spec: "current UTC time formatted to second granularity
as the folder segment" — identical to `generateObjectKey` except that the
folder formats the UTC instant (`now.epoch`) rather than the local clock
reading.  Kept only to compare against the source-derived definition. -/
def generateObjectKeySpecUTC (now : GoTime) (src : RandSource) : Option String :=
  match randRead src 16 with
  | none => none
  | some hashBytes =>
      some (formatTimestamp now.epoch ++ "/" ++ bytesToHex hashBytes)

/-! ### The per-object write task (main.go lines 118-143) -/

/-- The simulated storage backend behaviour for one task: the error (if any)
returned by `io.WriteString(obj, randomString)` and by the finalising
`obj.Close()`. -/
structure Backend where
  writeErr : Option String
  closeErr : Option String
deriving DecidableEq

/-- The goroutine body (main.go lines 118-143), reduced to its observable
effects: the list of messages the task sends on the `errs` channel, and
whether the writer was closed.  The write-failure branch sends
`"failed to write to GCS object <key>: <err>"` and still calls
`obj.Close()` best-effort, discarding its result; the close-failure branch
sends `"failed to close GCS object writer for <key>: <err>"`; the success
branch sends nothing. -/
def writeTask (objectKey : String) (b : Backend) : List String × Bool :=
  match b.writeErr with
  | some e =>
      (["failed to write to GCS object " ++ objectKey ++ ": " ++ e], true)
  | none =>
      match b.closeErr with
      | some e =>
          (["failed to close GCS object writer for " ++ objectKey ++ ": " ++ e], true)
      | none => ([], true)

/-! ### The buffered error channel (main.go line 114) -/

/-- A send on a Go channel with buffer capacity `cap` while no receiver is
running: it enqueues if the buffer has room and blocks (`none`) otherwise. -/
def trySend (cap : Nat) (buf : List String) (msg : String) : Option (List String) :=
  if buf.length < cap then some (buf ++ [msg]) else none

/-- All sends performed one after another; `none` as soon as one would
block. -/
def sendAll (cap : Nat) (buf : List String) : List String → Option (List String)
  | [] => some buf
  | m :: ms =>
      match trySend cap buf m with
      | none => none
      | some buf2 => sendAll cap buf2 ms

/-! ### The coordinator and handler (main.go lines 80-175) -/

/-- The incoming JSON structure (main.go lines 20-22). -/
structure Payload where
  number : Int
deriving DecidableEq

/-- The outgoing JSON structure (main.go lines 25-29). -/
structure ResponsePayload where
  objectsWritten : Int
  timeTaken : String
  errors : List String
deriving DecidableEq

/-- Observable side effects of the handler, in order of occurrence:
obtaining the bucket handle (line 104), spawning a goroutine (line 118),
and inside each task: consuming entropy for the key (line 122) and for the
content of the given length (line 125), creating the object writer
(line 128), writing (line 131) and closing (lines 133/138). -/
inductive Event where
  | bucketHandle
  | spawn
  | genKey
  | genContent (length : Nat)
  | newWriter
  | write
  | close
deriving DecidableEq

/-- The effects every task body performs (main.go lines 121-141): key and
1024-character content generation, writer creation, the write attempt, and
a close (best-effort after a failed write, finalising otherwise). -/
def taskEvents : List Event :=
  [.genKey, .genContent 1024, .newWriter, .write, .close]

/-- Per-task inputs the handler model abstracts over: the generated object
keys and the simulated backend behaviour of each task, plus the rendering
of the measured duration. -/
structure Env where
  keys : Nat → String
  backends : Nat → Backend
  elapsed : String

/-- The error messages landing in the `errs` channel for tasks `0..n-1`, in
one arrival order (the spec fixes only the multiset, not the order). -/
def collectErrors (env : Env) : Nat → List String
  | 0 => []
  | n + 1 => collectErrors env n ++ (writeTask (env.keys n) (env.backends n)).1

/-- The spawn/task effect trace of the fan-out loop for tasks `0..n-1`. -/
def fanoutEvents : Nat → List Event
  | 0 => []
  | n + 1 => fanoutEvents n ++ (Event.spawn :: taskEvents)

/-- `handleRequest` (main.go lines 80-175).  The HTTP/JSON layer is
abstracted to the method string and the result of decoding the body
(`Except` mirrors `json.Decode`'s error return).  Returns the status code
written, the JSON response payload (none on the error-text rejections), and
the trace of storage/entropy effects. -/
def handleRequest (method : String) (decoded : Except String Payload) (env : Env) :
    Nat × Option ResponsePayload × List Event :=
  if method ≠ "POST" then
    (405, none, [])
  else
    match decoded with
    | .error _ => (400, none, [])
    | .ok payload =>
      if payload.number ≤ 0 then
        (400, none, [])
      else
        let n := payload.number.toNat
        let errorMessages := collectErrors env n
        let response : ResponsePayload :=
          { objectsWritten := payload.number - errorMessages.length
            timeTaken := env.elapsed
            errors := errorMessages }
        let events := Event.bucketHandle :: fanoutEvents n
        if errorMessages.length > 0 then
          (500, some response, events)
        else
          (200, some response, events)

/-! ### Coordinator synchronisation (main.go lines 111-150) -/

/-- The synchronisation-relevant steps of one request with `n` tasks:
`startTime := time.Now()` (line 111), the spawn of task `i` (line 118), task
`i`'s send on `errs` (line 132 or 139; a task with nothing to send is given
a virtual send at its return), its deferred `wg.Done()` (line 119), the
return of `wg.Wait()` (line 146), and `time.Since(startTime)` (line 150). -/
inductive CoordStep (n : Nat) where
  | measureStart
  | spawn (i : Fin n)
  | send (i : Fin n)
  | done (i : Fin n)
  | wgWaitReturn
  | measureEnd

/-- An execution of the coordinator: an assignment of times to the steps,
constrained exactly by the orderings the source guarantees — program order
in the handler (`startTime` before the spawn loop, `wg.Wait()` before
`time.Since`), program order in each task (any send precedes the deferred
`wg.Done`), and WaitGroup semantics (every `wg.Done` precedes the return of
`wg.Wait`).  Task interleaving is otherwise arbitrary. -/
structure Schedule (n : Nat) where
  time : CoordStep n → Nat
  start_before_spawn : ∀ i, time .measureStart < time (.spawn i)
  spawn_before_send : ∀ i, time (.spawn i) < time (.send i)
  send_before_done : ∀ i, time (.send i) < time (.done i)
  done_before_wait : ∀ i, time (.done i) < time .wgWaitReturn
  wait_before_end : time .wgWaitReturn < time .measureEnd

/-! ### Process bootstrap (main.go lines 37-76) -/

/-- The outside world `main` consults at startup: whether `godotenv.Load()`
succeeds (a loadable `.env` file exists), the values `os.Getenv` returns
(Go reports an unset variable as `""`), and whether `storage.NewClient`
succeeds. -/
structure StartupEnv where
  dotenvOk : Bool
  gcsBucketName : String
  port : String
  clientOk : Bool

/-- Observable startup actions, in order: `godotenv.Load()` (line 39),
reading an environment variable, `storage.NewClient` (line 49), listening
(line 73). -/
inductive StartupEvent where
  | loadDotenv
  | readEnv (name : String)
  | createClient
  | listen (port : String)
deriving DecidableEq

/-- What startup ends in: a `log.Fatal` with the logged message, or serving
on a port. -/
inductive StartupResult where
  | fatal (msg : String)
  | serving (port : String)
deriving DecidableEq

/-- The startup sequence of `main` (main.go lines 37-76): load `.env` and die
on failure; print the bucket name (reads `GCS_BUCKET_NAME`, line 44); create
the storage client and die on failure; read `GCS_BUCKET_NAME` and die if
empty; read `PORT`, defaulting to `"8080"`; listen. -/
def mainStartup (env : StartupEnv) : StartupResult × List StartupEvent :=
  if ¬env.dotenvOk then
    (.fatal "Error loading .env file", [.loadDotenv])
  else if ¬env.clientOk then
    (.fatal "Failed to create GCS client",
      [.loadDotenv, .readEnv "GCS_BUCKET_NAME", .createClient])
  else if env.gcsBucketName = "" then
    (.fatal "GCS_BUCKET_NAME environment variable not set",
      [.loadDotenv, .readEnv "GCS_BUCKET_NAME", .createClient,
        .readEnv "GCS_BUCKET_NAME"])
  else
    let port := if env.port = "" then "8080" else env.port
    (.serving port,
      [.loadDotenv, .readEnv "GCS_BUCKET_NAME", .createClient,
        .readEnv "GCS_BUCKET_NAME", .readEnv "PORT", .listen port])

/-- A concrete per-task environment for witnesses: two tasks, the first with
a failing write, the second succeeding. -/
def env0 : Env where
  keys := fun _ => "k"
  backends := fun i => if i = 0 then ⟨some "boom", none⟩ else ⟨none, none⟩
  elapsed := "1s"

/-! ### Helper lemmas -/

theorem writeTask_sends_le (key : String) (b : Backend) :
    ((writeTask key b).1).length ≤ 1 := by
  rcases b with ⟨w, c⟩
  cases w <;> cases c <;> simp [writeTask]

theorem collectErrors_length_le (env : Env) : ∀ n, (collectErrors env n).length ≤ n := by
  intro n
  induction n with
  | zero => simp [collectErrors]
  | succ n ih =>
    have h := writeTask_sends_le (env.keys n) (env.backends n)
    simp only [collectErrors, List.length_append]
    omega

theorem sendAll_eq_of_le (cap : Nat) (ms : List String) : ∀ buf : List String,
    buf.length + ms.length ≤ cap → sendAll cap buf ms = some (buf ++ ms) := by
  induction ms with
  | nil => intro buf _; simp [sendAll]
  | cons m ms ih =>
    intro buf h
    simp only [List.length_cons] at h
    have hlt : buf.length < cap := by omega
    simp only [sendAll, trySend, if_pos hlt]
    rw [ih (buf ++ [m]) (by simp; omega)]
    simp

theorem charsetAt_mem (b : Nat) : charsetAt b ∈ charsetChars := by
  have h : b % 62 < 62 := Nat.mod_lt _ (by decide)
  have hall : ∀ i, i < 62 → charsetChars.getD i 'a' ∈ charsetChars := by decide
  exact hall _ h

theorem bytesToHex_length (bs : List Nat) :
    (bytesToHex bs).length = 2 * bs.length := by
  induction bs with
  | nil => rfl
  | cons b bs ih =>
    simp only [bytesToHex, String.length] at ih ⊢
    simp only [List.flatMap_cons, List.length_append, List.length_cons, ih]
    simp [byteToHex]
    omega

theorem byteToHex_mem (b : Nat) : ∀ c ∈ byteToHex b, c ∈ hexChars := by
  have hall : ∀ i, i < 16 → hexChars.getD i '0' ∈ hexChars := by decide
  intro c hc
  simp only [byteToHex, List.mem_cons, List.not_mem_nil, or_false] at hc
  rcases hc with rfl | rfl
  · exact hall _ (Nat.mod_lt _ (by decide))
  · exact hall _ (Nat.mod_lt _ (by decide))

theorem bytesToHex_mem (bs : List Nat) :
    ∀ c ∈ (bytesToHex bs).data, c ∈ hexChars := by
  intro c hc
  simp only [bytesToHex, List.mem_flatMap] at hc
  obtain ⟨b, _, h⟩ := hc
  exact byteToHex_mem b c h

/-! ### Claim theorems -/

/-- C1: for every request with count > 0 that reaches the coordinator, the
aggregate result satisfies `objects_written + |errors| = count`;
`objects_written` is computed as the count minus the number of collected
failure messages, for any mixture of per-task successes and failures
(arbitrary `env.backends`). -/
theorem handleRequest_outcome_conservation (p : Payload) (env : Env)
    (hp : 0 < p.number) :
    ∃ r : ResponsePayload,
      (handleRequest "POST" (.ok p) env).2.1 = some r ∧
      r.objectsWritten + r.errors.length = p.number ∧
      r.objectsWritten = p.number - r.errors.length ∧
      (r.errors.length : Int) ≤ p.number := by
  have hn : ¬ p.number ≤ 0 := not_le.mpr hp
  have hlen : ((collectErrors env p.number.toNat).length : Int) ≤ p.number := by
    have h1 := collectErrors_length_le env p.number.toNat
    have h2 : (p.number.toNat : Int) = p.number := Int.toNat_of_nonneg hp.le
    omega
  refine ⟨{ objectsWritten := p.number - (collectErrors env p.number.toNat).length
            timeTaken := env.elapsed
            errors := collectErrors env p.number.toNat }, ?_, by
              show p.number - ((collectErrors env p.number.toNat).length : Int) +
                ((collectErrors env p.number.toNat).length : Int) = p.number
              omega, rfl, hlen⟩
  simp only [handleRequest, if_neg hn]
  norm_num
  split <;> rfl

theorem handleRequest_outcome_conservation_witness :
    (0 : Int) < (Payload.mk 2).number ∧
    (∃ r : ResponsePayload,
      (handleRequest "POST" (.ok (Payload.mk 2)) env0).2.1 = some r ∧
      r.objectsWritten + r.errors.length = (Payload.mk 2).number ∧
      r.objectsWritten = (Payload.mk 2).number - r.errors.length ∧
      (r.errors.length : Int) ≤ (Payload.mk 2).number) :=
  ⟨by decide, handleRequest_outcome_conservation ⟨2⟩ env0 (by decide)⟩

/-- C2: the `errs` channel is created with capacity `n` (the requested
count); each task sends at most one error on it; the total number of sends
is at most the capacity, so `sendAll` with capacity `n` succeeds — no send
ever blocks even if every task fails, the drained buffer is exactly the
multiset of sent messages (nothing dropped or duplicated), and hence every
task terminates and `wg.Wait` followed by draining the closed channel
returns. -/
theorem errorChannel_capacity_safe (env : Env) (n : Nat) :
    (∀ i, ((writeTask (env.keys i) (env.backends i)).1).length ≤ 1) ∧
    (collectErrors env n).length ≤ n ∧
    sendAll n [] (collectErrors env n) = some (collectErrors env n) := by
  refine ⟨fun i => writeTask_sends_le _ _, collectErrors_length_le env n, ?_⟩
  have h := sendAll_eq_of_le n (collectErrors env n) []
    (by simpa using collectErrors_length_le env n)
  simpa using h

/-- C5: in every execution of the coordinator consistent with the source's
synchronisation (program order and WaitGroup semantics), the measurement
start precedes every task dispatch, and every task's outcome send precedes
the measurement end — no collected outcome is observed after the end of the
measured interval. -/
theorem coordinator_timing (n : Nat) (sched : Schedule n) (i : Fin n) :
    sched.time .measureStart < sched.time (.spawn i) ∧
    sched.time (.send i) < sched.time .measureEnd := by
  refine ⟨sched.start_before_spawn i, ?_⟩
  have h1 := sched.send_before_done i
  have h2 := sched.done_before_wait i
  have h3 := sched.wait_before_end
  omega

/-- C6: a failed write sends exactly one message naming the key and the
write error, with the best-effort close's result ignored (the outcome does
not depend on `closeErr`); a successful write with a failed close sends
exactly one message naming the key and the finalize error; full success
sends nothing; and every task sends at most one failure outcome. -/
theorem writeTask_failure_modes (key e : String) (copt : Option String) :
    writeTask key { writeErr := some e, closeErr := copt } =
      (["failed to write to GCS object " ++ key ++ ": " ++ e], true) ∧
    writeTask key { writeErr := none, closeErr := some e } =
      (["failed to close GCS object writer for " ++ key ++ ": " ++ e], true) ∧
    writeTask key { writeErr := none, closeErr := none } = ([], true) ∧
    ∀ b : Backend, ((writeTask key b).1).length ≤ 1 :=
  ⟨rfl, rfl, rfl, fun b => writeTask_sends_le key b⟩

/-- C3: the response status is 405 for a non-POST method; 400 when the body
fails to decode or the decoded count is non-positive; otherwise 500 when at
least one per-object failure was collected and 200 when none was. -/
theorem handleRequest_status (method : String) (decoded : Except String Payload)
    (env : Env) :
    (handleRequest method decoded env).1 =
      if method ≠ "POST" then 405
      else
        match decoded with
        | .error _ => 400
        | .ok p =>
          if p.number ≤ 0 then 400
          else if (collectErrors env p.number.toNat).length > 0 then 500
          else 200 := by
  by_cases hm : method ≠ "POST"
  · simp only [handleRequest, if_pos hm]
  · simp only [handleRequest, if_neg hm]
    cases decoded with
    | error e => rfl
    | ok p =>
      by_cases hp : p.number ≤ 0
      · simp only [if_pos hp]
      · simp only [if_neg hp]
        by_cases hl : (collectErrors env p.number.toNat).length > 0
        · simp only [if_pos hl]
        · simp only [if_neg hl]

/-- C4 counterexample: the claim says the folder segment is the current UTC
time, but `generateObjectKey` formats `time.Now()`, the local wall clock.
At the epoch instant 0 in a zone one hour east of UTC the generated key's
folder reads 01:00:00 while the UTC formatting of the same instant reads
00:00:00, so the generated key differs from the spec's UTC-folder key. -/
theorem generateObjectKey_utc_counterexample :
    generateObjectKey ⟨0, 3600⟩ (.ok fun _ => (0 : Fin 256)) =
      some "19700101T010000/00000000000000000000000000000000" ∧
    generateObjectKeySpecUTC ⟨0, 3600⟩ (.ok fun _ => (0 : Fin 256)) =
      some "19700101T000000/00000000000000000000000000000000" ∧
    generateObjectKey ⟨0, 3600⟩ (.ok fun _ => (0 : Fin 256)) ≠
      generateObjectKeySpecUTC ⟨0, 3600⟩ (.ok fun _ => (0 : Fin 256)) := by
  refine ⟨by decide, by decide, by decide⟩

/-- C4 amended: every generated object key is the current local wall-clock
time (`time.Now()`, the system's time zone — UTC only when the server's
zone offset is zero) formatted at second granularity, joined by `/` to the
lowercase hexadecimal encoding of 16 cryptographically random bytes: the
hex segment is 32 characters long and uses only `0-9a-f`. -/
theorem generateObjectKey_format (t : GoTime) (s : Nat → Fin 256) :
    generateObjectKey t (.ok s) =
      some (formatTimestamp (localClockSeconds t) ++ "/" ++
        bytesToHex ((List.range 16).map fun i => (s i).val)) ∧
    (bytesToHex ((List.range 16).map fun i => (s i).val)).length = 32 ∧
    ∀ c ∈ (bytesToHex ((List.range 16).map fun i => (s i).val)).data,
      c ∈ hexChars := by
  refine ⟨rfl, ?_, ?_⟩
  · have h := bytesToHex_length ((List.range 16).map fun i => (s i).val)
    simpa using h
  · exact bytesToHex_mem _

/-- C7: a request rejected for shape reasons (non-POST, undecodable body, or
count ≤ 0) produces no JSON response payload and an empty effect trace — no
bucket handle, no task spawn, no entropy consumption, no writer creation:
the handler returns before any storage work begins. -/
theorem handleRequest_reject_no_work (method : String)
    (decoded : Except String Payload) (env : Env)
    (h : method ≠ "POST" ∨ (∃ e, decoded = .error e) ∨
      (∃ p, decoded = .ok p ∧ p.number ≤ 0)) :
    (handleRequest method decoded env).2 = (none, []) := by
  rcases h with hm | ⟨e, rfl⟩ | ⟨p, rfl, hp⟩
  · simp only [handleRequest, if_pos hm]
  · by_cases hm : method ≠ "POST"
    · simp only [handleRequest, if_pos hm]
    · simp only [handleRequest, if_neg hm]
  · by_cases hm : method ≠ "POST"
    · simp only [handleRequest, if_pos hm]
    · simp only [handleRequest, if_neg hm, if_pos hp]

theorem handleRequest_reject_no_work_witness :
    (handleRequest "GET" (.ok (Payload.mk 1)) env0).2 = (none, []) :=
  handleRequest_reject_no_work "GET" (.ok ⟨1⟩) env0 (Or.inl (by decide))

/-- C8: for every length, `generateRandomString` on a working entropy source
returns a string of exactly that length, each character drawn from the
62-symbol alphanumeric charset; the task body requests a 1024-character
content string. -/
theorem generateRandomString_spec (length : Nat) (s : Nat → Fin 256) :
    ∃ str : String,
      generateRandomString length (.ok s) = some str ∧
      str.length = length ∧
      (∀ c ∈ str.data, c ∈ charsetChars) ∧
      charsetChars.length = 62 ∧
      Event.genContent 1024 ∈ taskEvents := by
  refine ⟨⟨(((List.range length).map fun i => (s i).val).map charsetAt)⟩,
    rfl, ?_, ?_, by decide, by decide⟩
  · simp [String.length]
  · intro c hc
    simp only [List.mem_map] at hc
    obtain ⟨b, _, rfl⟩ := hc
    exact charsetAt_mem b

/-- C9: a failure of the cryptographic random source during key or content
generation is fatal (the computation aborts with `none`, modelling Go's
`crypto/rand` contract that the process dies rather than hand back partial
data): a key or content string is produced exactly when the source works,
so a failing source never yields a key or content built from incomplete
random data. -/
theorem randSource_failure_fatal (t : GoTime) (length : Nat) :
    generateObjectKey t .failed = none ∧
    generateRandomString length .failed = none ∧
    (∀ src : RandSource,
      (generateObjectKey t src).isSome = true ↔ src ≠ .failed) ∧
    (∀ src : RandSource,
      (generateRandomString length src).isSome = true ↔ src ≠ .failed) := by
  refine ⟨rfl, rfl, ?_, ?_⟩
  · intro src
    cases src with
    | ok s =>
      constructor
      · intro _ hcontra
        exact RandSource.noConfusion hcontra
      · intro _
        rfl
    | failed =>
      constructor
      · intro hcontra
        simp [generateObjectKey, randRead] at hcontra
      · intro hne
        exact absurd rfl hne
  · intro src
    cases src with
    | ok s =>
      constructor
      · intro _ hcontra
        exact RandSource.noConfusion hcontra
      · intro _
        rfl
    | failed =>
      constructor
      · intro hcontra
        simp [generateRandomString, randRead] at hcontra
      · intro hne
        exact absurd rfl hne

/-- C10: when `godotenv.Load()` fails (no loadable `.env` file), startup
ends in the fatal "Error loading .env file" after performing only the load
attempt — no environment variable is read and no storage client is created,
for every value of `GCS_BUCKET_NAME` and `PORT`, including set ones. -/
theorem mainStartup_dotenv_fatal (bucket port : String) (clientOk : Bool) :
    mainStartup ⟨false, bucket, port, clientOk⟩ =
      (.fatal "Error loading .env file", [StartupEvent.loadDotenv]) ∧
    (∀ name, StartupEvent.readEnv name ∉
      (mainStartup ⟨false, bucket, port, clientOk⟩).2) ∧
    StartupEvent.createClient ∉ (mainStartup ⟨false, bucket, port, clientOk⟩).2 := by
  refine ⟨rfl, ?_, ?_⟩
  · intro name
    simp [mainStartup]
  · simp [mainStartup]

end GCSWriter
